import Mathlib

/-!
Verification development for the FreshGuard food-spoilage monitor.

The definitions below are a shallow embedding of the Python source:
  - `src/models.py` — the `Alert` and `SensorReading` rows;
  - `src/config.py` — the threshold defaults `RATIO_WARNING` / `RATIO_FRESH`;
  - `src/services/sensor_service.py` — `normalize_reading`, `save_reading`;
  - `src/services/alert_service.py` — `should_send_alert`, `send_voice_alert`,
    `create_alert`, `resolve_alerts`;
  - `src/tasks.py` — the alert block of `collect_device_data`.

Numbers are modelled as rationals, timestamps as integers counting minutes,
and the alert table as a list of `Alert` rows. The Twilio dependency is
modelled by `NotifierBehavior`: the client may be absent (no credentials),
or the transport call may raise (caught by `send_voice_alert`), or succeed
with a call sid.
-/

namespace FreshGuard

/-- Model of the `alerts` table row (src/models.py, class Alert):
timestamps are minutes as integers, `ratio_value` a rational. -/
structure Alert where
  device_id : String
  alert_type : String
  ratio_value : ℚ
  phone_number : Option String
  call_sid : Option String
  is_resolved : Bool
  timestamp : ℤ
deriving DecidableEq, Repr

/-- Model of the normalized reading dict returned by
`SensorService.normalize_reading` (src/services/sensor_service.py).
`status` is `none` when the raw status value was JSON null. -/
structure Reading where
  device_id : String
  ro : ℚ
  rs : ℚ
  ratio : ℚ
  vout : ℚ
  status : Option String
  timestamp : ℤ
deriving DecidableEq, Repr

/-- Model of the `sensor_readings` table row (src/models.py, class SensorReading). -/
structure SensorReading where
  device_id : String
  ro : ℚ
  rs : ℚ
  ratio : ℚ
  vout : ℚ
  status : Option String
  is_alert : Bool
  timestamp : ℤ
deriving DecidableEq, Repr

/-- Threshold default from src/config.py: `RATIO_WARNING: float = 0.5`. -/
def RATIO_WARNING : ℚ := 1/2

/-- Threshold default from src/config.py: `RATIO_FRESH: float = 0.8`. -/
def RATIO_FRESH : ℚ := 4/5

/-- A value found (or not) in the raw device mapping for a numeric key:
it can be absent, JSON null, a non-numeric-coercible value (e.g. a
non-numeric string), or a value that coerces to a number. -/
inductive RawVal where
  | missing : RawVal
  | null : RawVal
  | bad (s : String) : RawVal
  | num (q : ℚ) : RawVal
deriving DecidableEq, Repr

/-- The raw value under the `status` key: absent, JSON null, or a string. -/
inductive RawStatus where
  | missing : RawStatus
  | null : RawStatus
  | str (s : String) : RawStatus
deriving DecidableEq, Repr

/-- The raw device mapping, projected onto the keys
`Ro, Rs, Vout, ratio, status` that `normalize_reading` reads. -/
structure RawData where
  Ro : RawVal
  Rs : RawVal
  Vout : RawVal
  ratio : RawVal
  status : RawStatus
deriving DecidableEq, Repr

/-- The inner `safe_float` helper of `normalize_reading`
(src/services/sensor_service.py lines 40-45): `float(value)` when the value
coerces, the default `0.0` when it is `None` or raises `ValueError`/`TypeError`.
Note that `raw_data.get(key, 0.0)` also yields `0.0` for an absent key, so all
non-coercible cases collapse to `0`. -/
def safe_float : RawVal → ℚ
  | RawVal.num q => q
  | _ => 0

/-- True exactly when the raw value coerces to a number. -/
def RawVal.coerces : RawVal → Bool
  | RawVal.num _ => true
  | _ => false

/-- The result of `raw_data.get("status", "")`: the empty string for an
absent key, otherwise the stored value (possibly JSON null). -/
def statusGet : RawStatus → Option String
  | RawStatus.missing => some ""
  | RawStatus.null => none
  | RawStatus.str s => some s

/-- Shallow embedding of `SensorService.normalize_reading`
(src/services/sensor_service.py lines 38-61). The wall-clock
`datetime.utcnow()` is an explicit `now` parameter. -/
def normalize_reading (raw_data : RawData) (device_id : String) (now : ℤ) : Reading :=
  let ro := safe_float raw_data.Ro
  let rs := safe_float raw_data.Rs
  let ratio0 := safe_float raw_data.ratio
  let ratio := if ratio0 = 0 ∧ 0 < ro then rs / ro else ratio0
  { device_id := device_id
    ro := ro
    rs := rs
    ratio := ratio
    vout := safe_float raw_data.Vout
    status := statusGet raw_data.status
    timestamp := now }

/-- Shallow embedding of `SensorService.save_reading`
(src/services/sensor_service.py lines 63-94): the persisted row, with
`is_alert = reading_data["ratio"] <= settings.RATIO_WARNING`. The configured
threshold `settings.RATIO_WARNING` is the `warningT` parameter. -/
def save_reading (warningT : ℚ) (reading_data : Reading) : SensorReading :=
  { device_id := reading_data.device_id
    ro := reading_data.ro
    rs := reading_data.rs
    ratio := reading_data.ratio
    vout := reading_data.vout
    status := reading_data.status
    is_alert := decide (reading_data.ratio ≤ warningT)
    timestamp := reading_data.timestamp }

/-- State of the Twilio dependency seen by one `create_alert` call:
the client may be uninitialized (missing credentials), or the
`calls.create` transport call may raise, or return a call sid. -/
inductive NotifierBehavior where
  | notConfigured : NotifierBehavior
  | configured (result : Except String String) : NotifierBehavior
deriving Repr

/-- Shallow embedding of `AlertService.send_voice_alert`
(src/services/alert_service.py lines 38-65): returns `None` when the client
is not configured, catches any transport exception and returns `None`, and
returns the call sid on success. It never propagates a failure. -/
def send_voice_alert : NotifierBehavior → Option String
  | NotifierBehavior.notConfigured => none
  | NotifierBehavior.configured (Except.error _) => none
  | NotifierBehavior.configured (Except.ok sid) => some sid

/-- Cooldown from `AlertService.should_send_alert`:
`30 if alert_type == "spoiled" else 60` (minutes). -/
def cooldown_minutes (alert_type : String) : ℤ :=
  if alert_type == "spoiled" then 30 else 60

/-- True when the alert history holds a row matching the query of
`AlertService.should_send_alert`: same device and kind, timestamp within the
cooldown window of the kind, not resolved. -/
def suppressing (history : List Alert) (now : ℤ) (device_id alert_type : String) : Bool :=
  history.any fun a =>
    a.device_id == device_id && a.alert_type == alert_type &&
      decide (now - cooldown_minutes alert_type ≤ a.timestamp) && !a.is_resolved

/-- Shallow embedding of `AlertService.should_send_alert`
(src/services/alert_service.py lines 22-36): true when no matching recent
unresolved alert exists. -/
def should_send_alert (history : List Alert) (now : ℤ) (device_id alert_type : String) : Bool :=
  !(suppressing history now device_id alert_type)

/-- Python truthiness of the `phone_number` argument in
`if phone_number and ...`: `None` and the empty string are falsy. -/
def truthyPhone : Option String → Bool
  | none => false
  | some p => p != ""

/-- Result of one `create_alert` call: the alert table after the commit, the
created row, and whether `send_voice_alert` was invoked. -/
structure CreateResult where
  history : List Alert
  alert : Alert
  notifierInvoked : Bool
deriving DecidableEq, Repr

/-- Shallow embedding of `AlertService.create_alert`
(src/services/alert_service.py lines 67-87). The row is always constructed
and committed; the voice call happens only when a truthy phone number is
given and `should_send_alert` passes, and its result (possibly `None`)
becomes `call_sid`. The function is total: a notifier failure is absorbed by
`send_voice_alert` and never surfaces. -/
def create_alert (nb : NotifierBehavior) (history : List Alert) (now : ℤ)
    (device_id alert_type : String) (ratio : ℚ) (phone_number : Option String) : CreateResult :=
  let base : Alert :=
    { device_id := device_id
      alert_type := alert_type
      ratio_value := ratio
      phone_number := phone_number
      call_sid := none
      is_resolved := false
      timestamp := now }
  if truthyPhone phone_number && should_send_alert history now device_id alert_type then
    let a := { base with call_sid := send_voice_alert nb }
    { history := history ++ [a], alert := a, notifierInvoked := true }
  else
    { history := history ++ [base], alert := base, notifierInvoked := false }

/-- Update of one row in `AlertService.resolve_alerts`: rows matching the
query (same device, unresolved, and matching kind when one is given) get
`is_resolved = True`; others are untouched. -/
def resolveOne (device_id : String) (alert_type : Option String) (a : Alert) : Alert :=
  if a.device_id == device_id && !a.is_resolved &&
      (match alert_type with
       | none => true
       | some t => a.alert_type == t) then
    { a with is_resolved := true }
  else a

/-- Shallow embedding of `AlertService.resolve_alerts`
(src/services/alert_service.py lines 89-105). -/
def resolve_alerts (history : List Alert) (device_id : String)
    (alert_type : Option String) : List Alert :=
  history.map (resolveOne device_id alert_type)

/-- The decision taken by the alert block of `collect_device_data`. -/
inductive Decision where
  | created (kind : String) : Decision
  | resolvedAll : Decision
deriving DecidableEq, Repr

/-- Result of one evaluation of the alert block. -/
structure EvalResult where
  history : List Alert
  decision : Decision
  notifierInvoked : Bool
deriving DecidableEq, Repr

/-- Shallow embedding of the alert block of `collect_device_data`
(src/tasks.py lines 49-55): classify the ratio against the two thresholds
(`settings.RATIO_WARNING` and `settings.RATIO_FRESH` are the `warningT` /
`freshT` parameters) and create a "spoiled" alert, create a "warning" alert,
or resolve all alerts for the device. `collect_device_data` passes no phone
number to `create_alert`. -/
def collect_step (nb : NotifierBehavior) (history : List Alert) (now : ℤ)
    (device_id : String) (warningT freshT ratio : ℚ) : EvalResult :=
  if ratio ≤ warningT then
    let c := create_alert nb history now device_id "spoiled" ratio none
    { history := c.history, decision := Decision.created "spoiled",
      notifierInvoked := c.notifierInvoked }
  else if ratio ≤ freshT then
    let c := create_alert nb history now device_id "warning" ratio none
    { history := c.history, decision := Decision.created "warning",
      notifierInvoked := c.notifierInvoked }
  else
    { history := resolve_alerts history device_id none,
      decision := Decision.resolvedAll, notifierInvoked := false }

/-- Severity of a reading, as classified by the `if ratio <= RATIO_WARNING /
elif ratio <= RATIO_FRESH / else` chain in src/tasks.py lines 49-55 and
src/app.py lines 74-86. -/
inductive Severity where
  | SPOILED : Severity
  | WARNING : Severity
  | FRESH : Severity
deriving DecidableEq, Repr

/-- The classification chain itself, with the two configured thresholds. -/
def classifySeverity (warningT freshT ratio : ℚ) : Severity :=
  if ratio ≤ warningT then Severity.SPOILED
  else if ratio ≤ freshT then Severity.WARNING
  else Severity.FRESH

/-- Number of unresolved rows of a given kind for a given device. -/
def countUnresolved (history : List Alert) (device_id alert_type : String) : Nat :=
  (history.filter fun a =>
    a.device_id == device_id && a.alert_type == alert_type && !a.is_resolved).length

/-- Sample unresolved "spoiled" row used as a concrete alert-table state. -/
def sampleSpoiledAlert : Alert :=
  { device_id := "d", alert_type := "spoiled", ratio_value := 2/5, phone_number := none,
    call_sid := none, is_resolved := false, timestamp := 0 }

/-- Sample alert table holding one unresolved "spoiled" row for device "d". -/
def sampleHistory : List Alert := [sampleSpoiledAlert]

/-- Sample normalized reading. -/
def sampleReading : Reading :=
  { device_id := "d", ro := 2, rs := 1, ratio := 1/2, vout := 0,
    status := some "", timestamp := 0 }

/-! ### Helper lemmas -/

/-- Applying the row update of `resolve_alerts` twice is the same as once. -/
theorem resolveOne_idem (device_id : String) (alert_type : Option String) (a : Alert) :
    resolveOne device_id alert_type (resolveOne device_id alert_type a) =
      resolveOne device_id alert_type a := by
  unfold resolveOne
  split
  · simp
  · simp_all

/-- After the row update of `resolve_alerts` for a device (no kind filter),
a row either belongs to another device or is resolved. -/
theorem resolveOne_marks (device_id : String) (a : Alert) :
    (!((resolveOne device_id none a).device_id == device_id) ||
      (resolveOne device_id none a).is_resolved) = true := by
  unfold resolveOne
  split
  · simp
  · simp_all
    tauto

/-- A raw value that does not coerce to a number is read back as `0` by
`safe_float`. -/
theorem safe_float_of_not_coerces (v : RawVal) (h : v.coerces = false) :
    safe_float v = 0 := by
  cases v <;> simp [RawVal.coerces, safe_float] at *

/-! ### Claim theorems -/

/-- C9: resolving alerts is idempotent — for every alert table, device id and
optional kind, applying `resolve_alerts` twice yields the same table as
applying it once. -/
theorem resolve_alerts_idempotent (history : List Alert) (device_id : String)
    (alert_type : Option String) :
    resolve_alerts (resolve_alerts history device_id alert_type) device_id alert_type =
      resolve_alerts history device_id alert_type := by
  induction history with
  | nil => rfl
  | cons a rest ih =>
    simp only [resolve_alerts, List.map_cons] at ih ⊢
    rw [resolveOne_idem]
    exact congrArg _ ih

/-- C2: for every reading whose ratio is strictly above the fresh threshold
(with the configured ordering warning ≤ fresh), the alert block of
`collect_device_data` takes the resolution path: it creates no new row (the
table length is unchanged) and afterwards every row of that device is
resolved. -/
theorem fresh_resolves_all (nb : NotifierBehavior) (history : List Alert) (now : ℤ)
    (device_id : String) (warningT freshT ratio : ℚ)
    (hconf : warningT ≤ freshT) (hfresh : freshT < ratio) :
    (collect_step nb history now device_id warningT freshT ratio).decision =
      Decision.resolvedAll ∧
    (collect_step nb history now device_id warningT freshT ratio).history.length =
      history.length ∧
    ((collect_step nb history now device_id warningT freshT ratio).history.all fun a =>
      !(a.device_id == device_id) || a.is_resolved) = true := by
  have h1 : ¬ ratio ≤ warningT := not_le.mpr (lt_of_le_of_lt hconf hfresh)
  have h2 : ¬ ratio ≤ freshT := not_le.mpr hfresh
  unfold collect_step
  rw [if_neg h1, if_neg h2]
  refine ⟨rfl, ?_, ?_⟩
  · simp [resolve_alerts]
  · simp only [resolve_alerts, List.all_eq_true, List.mem_map]
    rintro b ⟨a, _, rfl⟩
    exact resolveOne_marks device_id a

/-- Witness for C2: a fresh reading (ratio 9/10 against thresholds 1/2 and
4/5) on a table holding one unresolved "spoiled" row for the device. -/
theorem fresh_resolves_all_witness :
    RATIO_WARNING ≤ RATIO_FRESH ∧ RATIO_FRESH < (9:ℚ)/10 ∧
    ((collect_step NotifierBehavior.notConfigured sampleHistory 10 "d"
        RATIO_WARNING RATIO_FRESH ((9:ℚ)/10)).decision = Decision.resolvedAll ∧
     (collect_step NotifierBehavior.notConfigured sampleHistory 10 "d"
        RATIO_WARNING RATIO_FRESH ((9:ℚ)/10)).history.length = sampleHistory.length ∧
     ((collect_step NotifierBehavior.notConfigured sampleHistory 10 "d"
        RATIO_WARNING RATIO_FRESH ((9:ℚ)/10)).history.all fun a =>
       !(a.device_id == "d") || a.is_resolved) = true) :=
  ⟨by norm_num [RATIO_WARNING, RATIO_FRESH], by norm_num [RATIO_FRESH],
   fresh_resolves_all NotifierBehavior.notConfigured sampleHistory 10 "d"
     RATIO_WARNING RATIO_FRESH ((9:ℚ)/10)
     (by norm_num [RATIO_WARNING, RATIO_FRESH]) (by norm_num [RATIO_FRESH])⟩

/-- C4: with the configured ordering warning ≤ fresh, the classification
chain puts a ratio in exactly one of the three bands — SPOILED iff
ratio ≤ warning, WARNING iff warning < ratio ≤ fresh, FRESH iff
ratio > fresh — and the alert block of `collect_device_data` maps SPOILED to
alert kind "spoiled", WARNING to "warning", and FRESH to the resolution
path. -/
theorem classify_bands (warningT freshT ratio : ℚ) (hconf : warningT ≤ freshT) :
    (classifySeverity warningT freshT ratio = Severity.SPOILED ↔ ratio ≤ warningT) ∧
    (classifySeverity warningT freshT ratio = Severity.WARNING ↔
      warningT < ratio ∧ ratio ≤ freshT) ∧
    (classifySeverity warningT freshT ratio = Severity.FRESH ↔ freshT < ratio) ∧
    (∀ (nb : NotifierBehavior) (history : List Alert) (now : ℤ) (device_id : String),
      (collect_step nb history now device_id warningT freshT ratio).decision =
        match classifySeverity warningT freshT ratio with
        | Severity.SPOILED => Decision.created "spoiled"
        | Severity.WARNING => Decision.created "warning"
        | Severity.FRESH => Decision.resolvedAll) := by
  unfold classifySeverity
  by_cases h1 : ratio ≤ warningT
  · rw [if_pos h1]
    refine ⟨by simp [h1], ?_, ?_, ?_⟩
    · constructor
      · intro h
        exact absurd h (by simp)
      · rintro ⟨hlt, _⟩
        exact absurd h1 (not_le.mpr hlt)
    · constructor
      · intro h
        exact absurd h (by simp)
      · intro hlt
        exact absurd h1 (not_le.mpr (lt_of_le_of_lt hconf hlt))
    · intro nb history now device_id
      simp [collect_step, h1]
  · rw [if_neg h1]
    by_cases h2 : ratio ≤ freshT
    · rw [if_pos h2]
      refine ⟨by simpa using h1, by simp [not_le.mp h1, h2], ?_, ?_⟩
      · constructor
        · intro h
          exact absurd h (by simp)
        · intro hlt
          exact absurd h2 (not_le.mpr hlt)
      · intro nb history now device_id
        simp [collect_step, h1, h2]
    · rw [if_neg h2]
      refine ⟨by simpa using h1, ?_, by simp [not_le.mp h2], ?_⟩
      · constructor
        · intro h
          exact absurd h (by simp)
        · rintro ⟨_, hle⟩
          exact absurd hle h2
      · intro nb history now device_id
        simp [collect_step, h1, h2]

/-- Witness for C4: the bands at the configured default thresholds 0.5 and
0.8 for a ratio of 0.6. -/
theorem classify_bands_witness :
    RATIO_WARNING ≤ RATIO_FRESH ∧
    ((classifySeverity RATIO_WARNING RATIO_FRESH ((3:ℚ)/5) = Severity.SPOILED ↔
        (3:ℚ)/5 ≤ RATIO_WARNING) ∧
     (classifySeverity RATIO_WARNING RATIO_FRESH ((3:ℚ)/5) = Severity.WARNING ↔
        RATIO_WARNING < (3:ℚ)/5 ∧ (3:ℚ)/5 ≤ RATIO_FRESH) ∧
     (classifySeverity RATIO_WARNING RATIO_FRESH ((3:ℚ)/5) = Severity.FRESH ↔
        RATIO_FRESH < (3:ℚ)/5) ∧
     (∀ (nb : NotifierBehavior) (history : List Alert) (now : ℤ) (device_id : String),
      (collect_step nb history now device_id RATIO_WARNING RATIO_FRESH ((3:ℚ)/5)).decision =
        match classifySeverity RATIO_WARNING RATIO_FRESH ((3:ℚ)/5) with
        | Severity.SPOILED => Decision.created "spoiled"
        | Severity.WARNING => Decision.created "warning"
        | Severity.FRESH => Decision.resolvedAll)) :=
  ⟨by norm_num [RATIO_WARNING, RATIO_FRESH],
   classify_bands RATIO_WARNING RATIO_FRESH ((3:ℚ)/5)
     (by norm_num [RATIO_WARNING, RATIO_FRESH])⟩

/-- C8: when no phone number is supplied (and `collect_device_data` never
supplies one), neither `create_alert` nor the alert block of
`collect_device_data` ever invokes the notifier, whatever the severity. -/
theorem no_phone_no_notifier (nb : NotifierBehavior) (history : List Alert) (now : ℤ)
    (device_id alert_type : String) (ratio warningT freshT : ℚ) :
    (create_alert nb history now device_id alert_type ratio none).notifierInvoked = false ∧
    (collect_step nb history now device_id warningT freshT ratio).notifierInvoked = false := by
  constructor
  · simp [create_alert, truthyPhone]
  · unfold collect_step
    by_cases h1 : ratio ≤ warningT
    · simp [h1, create_alert, truthyPhone]
    · by_cases h2 : ratio ≤ freshT <;> simp [h1, h2, create_alert, truthyPhone]

/-- C1 counterexample: two "spoiled" threshold readings (ratio 2/5) for
device "d", ten minutes apart, processed through the alert block of
`collect_device_data` with the default thresholds. Before the second
reading the table holds an unresolved "spoiled" row well inside the
30-minute cooldown window, yet the second reading still creates a row: the
table ends with two unresolved "spoiled" rows, not one. -/
theorem cooldown_creates_second_record :
    suppressing sampleHistory 10 "d" "spoiled" = true ∧
    countUnresolved sampleHistory "d" "spoiled" = 1 ∧
    countUnresolved (collect_step NotifierBehavior.notConfigured sampleHistory 10 "d"
      RATIO_WARNING RATIO_FRESH ((2:ℚ)/5)).history "d" "spoiled" = 2 := by
  refine ⟨?_, ?_, ?_⟩
  · norm_num [sampleHistory, sampleSpoiledAlert, suppressing, cooldown_minutes]
  · norm_num [sampleHistory, sampleSpoiledAlert, countUnresolved, List.filter]
  · norm_num [sampleHistory, sampleSpoiledAlert, collect_step, create_alert,
      truthyPhone, RATIO_WARNING, RATIO_FRESH, countUnresolved, List.filter]

/-- C1 amended: while an unresolved AlertRecord of the same kind for the
same device exists within the cooldown window of the kind, a further same-kind
call to `create_alert` still creates and persists a new row (the unresolved
count of that kind for that device grows by one); the cooldown suppresses
only the notification: the notifier is not invoked and the created row has
no `call_sid`. -/
theorem cooldown_suppresses_only_notification (nb : NotifierBehavior)
    (history : List Alert) (now : ℤ) (device_id alert_type : String) (ratio : ℚ)
    (phone_number : Option String)
    (hsup : suppressing history now device_id alert_type = true) :
    (create_alert nb history now device_id alert_type ratio phone_number).notifierInvoked =
      false ∧
    (create_alert nb history now device_id alert_type ratio phone_number).alert.call_sid =
      none ∧
    (create_alert nb history now device_id alert_type ratio phone_number).history =
      history ++ [(create_alert nb history now device_id alert_type ratio phone_number).alert] ∧
    countUnresolved
        (create_alert nb history now device_id alert_type ratio phone_number).history
        device_id alert_type =
      countUnresolved history device_id alert_type + 1 := by
  have hsend : should_send_alert history now device_id alert_type = false := by
    simp [should_send_alert, hsup]
  unfold create_alert
  rw [hsend]
  simp only [Bool.and_false, Bool.false_eq_true, if_false]
  refine ⟨by trivial, by trivial, by trivial, ?_⟩
  simp [countUnresolved, List.filter_append, List.filter]

/-- Witness for C1 amended: the suppressing state of the counterexample,
with a phone number supplied so that the notification gate is exercised. -/
theorem cooldown_suppresses_only_notification_witness :
    suppressing sampleHistory 10 "d" "spoiled" = true ∧
    ((create_alert NotifierBehavior.notConfigured sampleHistory 10 "d" "spoiled" ((2:ℚ)/5)
        (some "+15550100")).notifierInvoked = false ∧
     (create_alert NotifierBehavior.notConfigured sampleHistory 10 "d" "spoiled" ((2:ℚ)/5)
        (some "+15550100")).alert.call_sid = none ∧
     (create_alert NotifierBehavior.notConfigured sampleHistory 10 "d" "spoiled" ((2:ℚ)/5)
        (some "+15550100")).history =
       sampleHistory ++ [(create_alert NotifierBehavior.notConfigured sampleHistory 10 "d"
         "spoiled" ((2:ℚ)/5) (some "+15550100")).alert] ∧
     countUnresolved (create_alert NotifierBehavior.notConfigured sampleHistory 10 "d"
         "spoiled" ((2:ℚ)/5) (some "+15550100")).history "d" "spoiled" =
       countUnresolved sampleHistory "d" "spoiled" + 1) :=
  ⟨by norm_num [sampleHistory, sampleSpoiledAlert, suppressing, cooldown_minutes],
   cooldown_suppresses_only_notification NotifierBehavior.notConfigured sampleHistory 10
     "d" "spoiled" ((2:ℚ)/5) (some "+15550100")
     (by norm_num [sampleHistory, sampleSpoiledAlert, suppressing, cooldown_minutes])⟩

/-- C3: when the notifier fails — the Twilio client is not initialized, or
the transport call raises — `create_alert` still constructs and persists the
AlertRecord with the requested device id, kind and ratio; the row equals the
success-case row except that `call_sid` is unset, and the failure never
surfaces (the function is total and always returns the committed state). -/
theorem notifier_failure_is_isolated (nb : NotifierBehavior)
    (hfail : nb = NotifierBehavior.notConfigured ∨
      ∃ e, nb = NotifierBehavior.configured (Except.error e))
    (history : List Alert) (now : ℤ) (device_id alert_type : String) (ratio : ℚ)
    (phone_number : Option String) (sid : String) :
    (create_alert nb history now device_id alert_type ratio phone_number).alert.device_id =
      device_id ∧
    (create_alert nb history now device_id alert_type ratio phone_number).alert.alert_type =
      alert_type ∧
    (create_alert nb history now device_id alert_type ratio phone_number).alert.ratio_value =
      ratio ∧
    (create_alert nb history now device_id alert_type ratio phone_number).alert.call_sid =
      none ∧
    (create_alert nb history now device_id alert_type ratio phone_number).history =
      history ++ [(create_alert nb history now device_id alert_type ratio phone_number).alert] ∧
    (create_alert nb history now device_id alert_type ratio phone_number).alert =
      { (create_alert (NotifierBehavior.configured (Except.ok sid)) history now device_id
          alert_type ratio phone_number).alert with call_sid := none } := by
  unfold create_alert
  by_cases hc : (truthyPhone phone_number &&
      should_send_alert history now device_id alert_type) = true
  all_goals rcases hfail with h | ⟨e, h⟩ <;> subst h <;> simp [hc, send_voice_alert]

/-- Witness for C3: an uninitialized notifier on the sample table, with a
phone number supplied and no suppressing row (empty table), so the
notification path is reached and fails. -/
theorem notifier_failure_is_isolated_witness :
    (NotifierBehavior.notConfigured = NotifierBehavior.notConfigured ∨
      ∃ e, NotifierBehavior.notConfigured = NotifierBehavior.configured (Except.error e)) ∧
    ((create_alert NotifierBehavior.notConfigured [] 0 "d" "spoiled" ((2:ℚ)/5)
        (some "+15550100")).alert.device_id = "d" ∧
     (create_alert NotifierBehavior.notConfigured [] 0 "d" "spoiled" ((2:ℚ)/5)
        (some "+15550100")).alert.alert_type = "spoiled" ∧
     (create_alert NotifierBehavior.notConfigured [] 0 "d" "spoiled" ((2:ℚ)/5)
        (some "+15550100")).alert.ratio_value = (2:ℚ)/5 ∧
     (create_alert NotifierBehavior.notConfigured [] 0 "d" "spoiled" ((2:ℚ)/5)
        (some "+15550100")).alert.call_sid = none ∧
     (create_alert NotifierBehavior.notConfigured [] 0 "d" "spoiled" ((2:ℚ)/5)
        (some "+15550100")).history =
       [] ++ [(create_alert NotifierBehavior.notConfigured [] 0 "d" "spoiled" ((2:ℚ)/5)
         (some "+15550100")).alert] ∧
     (create_alert NotifierBehavior.notConfigured [] 0 "d" "spoiled" ((2:ℚ)/5)
        (some "+15550100")).alert =
       { (create_alert (NotifierBehavior.configured (Except.ok "CA123")) [] 0 "d" "spoiled"
           ((2:ℚ)/5) (some "+15550100")).alert with call_sid := none }) :=
  ⟨Or.inl rfl,
   notifier_failure_is_isolated NotifierBehavior.notConfigured (Or.inl rfl) [] 0 "d"
     "spoiled" ((2:ℚ)/5) (some "+15550100") "CA123"⟩

/-- Raw mapping that supplies an explicit ratio of 0 together with a
positive Ro. -/
def rawExplicitZero : RawData :=
  { Ro := RawVal.num 2, Rs := RawVal.num 1, Vout := RawVal.missing,
    ratio := RawVal.num 0, status := RawStatus.missing }

/-- Raw mapping of the round-trip example `{Ro: 500000, Rs: 250000}`. -/
def rawRoundTrip : RawData :=
  { Ro := RawVal.num 500000, Rs := RawVal.num 250000, Vout := RawVal.missing,
    ratio := RawVal.missing, status := RawStatus.missing }

/-- Raw mapping of the zero-baseline example `{Ro: 0, Rs: 250000}`. -/
def rawZeroRo : RawData :=
  { Ro := RawVal.num 0, Rs := RawVal.num 250000, Vout := RawVal.missing,
    ratio := RawVal.missing, status := RawStatus.missing }

/-- Raw mapping with a negative measured resistance. -/
def rawNegativeRs : RawData :=
  { Ro := RawVal.num 2, Rs := RawVal.num (-1), Vout := RawVal.missing,
    ratio := RawVal.missing, status := RawStatus.missing }

/-- C5 counterexample: the raw mapping `{ratio: 0, Ro: 2, Rs: 1}` supplies
an explicit ratio, but `normalize_reading` does not use it — the guard
`ratio == 0.0 and ro > 0` fires and the output ratio is Rs/Ro = 1/2, not
the supplied 0. -/
theorem explicit_zero_ratio_overridden :
    (normalize_reading rawExplicitZero "esp32_001" 0).ratio = 1/2 ∧
    ¬ (normalize_reading rawExplicitZero "esp32_001" 0).ratio =
        safe_float rawExplicitZero.ratio := by
  norm_num [normalize_reading, safe_float, rawExplicitZero]

/-- C5 amended: a supplied ratio is used only when it coerces to a nonzero
number; when the coerced ratio is 0 (supplied as 0, missing, null, or
non-coercible) the ratio is Rs/Ro if Ro > 0 and 0 otherwise. In particular
`{Ro: 500000, Rs: 250000}` yields ratio 1/2 exactly and `{Ro: 0, Rs:
250000}` yields ratio 0 with no division by zero. -/
theorem ratio_derivation (raw_data : RawData) (device_id : String) (now : ℤ) :
    (safe_float raw_data.ratio ≠ 0 →
      (normalize_reading raw_data device_id now).ratio = safe_float raw_data.ratio) ∧
    (safe_float raw_data.ratio = 0 → 0 < safe_float raw_data.Ro →
      (normalize_reading raw_data device_id now).ratio =
        safe_float raw_data.Rs / safe_float raw_data.Ro) ∧
    (safe_float raw_data.ratio = 0 → ¬ 0 < safe_float raw_data.Ro →
      (normalize_reading raw_data device_id now).ratio = 0) ∧
    (normalize_reading rawRoundTrip "x" 0).ratio = 1/2 ∧
    (normalize_reading rawZeroRo "x" 0).ratio = 0 := by
  refine ⟨?_, ?_, ?_, ?_, ?_⟩
  · intro h
    simp [normalize_reading, h]
  · intro h0 hro
    simp [normalize_reading, h0, hro]
  · intro h0 hro
    simp [normalize_reading, h0, hro]
  · norm_num [normalize_reading, safe_float, rawRoundTrip]
  · norm_num [normalize_reading, safe_float, rawZeroRo]

/-- Witness for C5 amended: a supplied nonzero ratio 7/10 is used verbatim
even though Ro is positive. -/
theorem ratio_derivation_witness :
    safe_float (RawVal.num ((7:ℚ)/10)) ≠ 0 ∧
    (normalize_reading
      { Ro := RawVal.num 2, Rs := RawVal.num 1, Vout := RawVal.missing,
        ratio := RawVal.num ((7:ℚ)/10), status := RawStatus.missing } "x" 0).ratio =
      safe_float (RawVal.num ((7:ℚ)/10)) :=
  ⟨by norm_num [safe_float],
   (ratio_derivation
     { Ro := RawVal.num 2, Rs := RawVal.num 1, Vout := RawVal.missing,
       ratio := RawVal.num ((7:ℚ)/10), status := RawStatus.missing } "x" 0).1
     (by norm_num [safe_float])⟩

/-- C6 counterexample: the raw mapping `{Ro: 2, Rs: -1}` norms to a
negative ratio -1/2, so the ratio is not always non-negative. -/
theorem negative_ratio_possible :
    (normalize_reading rawNegativeRs "esp32_001" 0).ratio < 0 := by
  norm_num [normalize_reading, safe_float, rawNegativeRs]

/-- C6 amended: the ratio produced by `normalize_reading` is non-negative
whenever the coerced ratio and Rs fields are non-negative — in particular
whenever those fields are missing, null, or malformed (they then coerce to
0). A negative supplied `ratio` or `Rs` is passed through. -/
theorem ratio_nonneg_of_nonneg_inputs (raw_data : RawData) (device_id : String)
    (now : ℤ) (hr : 0 ≤ safe_float raw_data.ratio) (hrs : 0 ≤ safe_float raw_data.Rs) :
    0 ≤ (normalize_reading raw_data device_id now).ratio := by
  unfold normalize_reading
  dsimp only
  split
  · next h => exact div_nonneg hrs (le_of_lt h.2)
  · exact hr

/-- Witness for C6 amended: the round-trip raw mapping has non-negative
coerced fields and a non-negative output ratio. -/
theorem ratio_nonneg_witness :
    0 ≤ safe_float rawRoundTrip.ratio ∧ 0 ≤ safe_float rawRoundTrip.Rs ∧
    0 ≤ (normalize_reading rawRoundTrip "x" 0).ratio :=
  ⟨by norm_num [safe_float, rawRoundTrip], by norm_num [safe_float, rawRoundTrip],
   ratio_nonneg_of_nonneg_inputs rawRoundTrip "x" 0
     (by norm_num [safe_float, rawRoundTrip]) (by norm_num [safe_float, rawRoundTrip])⟩

/-- C7: `normalize_reading` is total by construction — it returns a Reading
for every raw mapping and device id — and it substitutes defaults: a
numeric field (`Ro`, `Rs`, `Vout`, `ratio`) that is missing, null, or
non-coercible is read as 0 (so when both `ratio` and `Ro` are unusable the
output ratio is 0), and a missing `status` becomes the empty string. -/
theorem normalize_total_with_defaults (raw_data : RawData) (device_id : String) (now : ℤ) :
    (raw_data.Ro.coerces = false → (normalize_reading raw_data device_id now).ro = 0) ∧
    (raw_data.Rs.coerces = false → (normalize_reading raw_data device_id now).rs = 0) ∧
    (raw_data.Vout.coerces = false → (normalize_reading raw_data device_id now).vout = 0) ∧
    (raw_data.ratio.coerces = false → safe_float raw_data.ratio = 0) ∧
    (raw_data.ratio.coerces = false → raw_data.Ro.coerces = false →
      (normalize_reading raw_data device_id now).ratio = 0) ∧
    (raw_data.status = RawStatus.missing →
      (normalize_reading raw_data device_id now).status = some "") := by
  refine ⟨?_, ?_, ?_, ?_, ?_, ?_⟩
  · intro h
    simp [normalize_reading, safe_float_of_not_coerces raw_data.Ro h]
  · intro h
    simp [normalize_reading, safe_float_of_not_coerces raw_data.Rs h]
  · intro h
    simp [normalize_reading, safe_float_of_not_coerces raw_data.Vout h]
  · intro h
    exact safe_float_of_not_coerces raw_data.ratio h
  · intro h hro
    simp [normalize_reading, safe_float_of_not_coerces raw_data.ratio h,
      safe_float_of_not_coerces raw_data.Ro hro]
  · intro h
    simp [normalize_reading, h, statusGet]

/-- Witness for C7: a raw mapping in which every field is null and the
status key is absent defaults every numeric field to 0 and the status to
the empty string. -/
theorem normalize_total_with_defaults_witness :
    (RawVal.null).coerces = false ∧
    ((normalize_reading
        { Ro := RawVal.null, Rs := RawVal.null, Vout := RawVal.null,
          ratio := RawVal.null, status := RawStatus.missing } "x" 0).ro = 0 ∧
     (normalize_reading
        { Ro := RawVal.null, Rs := RawVal.null, Vout := RawVal.null,
          ratio := RawVal.null, status := RawStatus.missing } "x" 0).ratio = 0 ∧
     (normalize_reading
        { Ro := RawVal.null, Rs := RawVal.null, Vout := RawVal.null,
          ratio := RawVal.null, status := RawStatus.missing } "x" 0).status = some "") :=
  ⟨rfl,
   (normalize_total_with_defaults
      { Ro := RawVal.null, Rs := RawVal.null, Vout := RawVal.null,
        ratio := RawVal.null, status := RawStatus.missing } "x" 0).1 rfl,
   ((normalize_total_with_defaults
      { Ro := RawVal.null, Rs := RawVal.null, Vout := RawVal.null,
        ratio := RawVal.null, status := RawStatus.missing } "x" 0).2.2.2.2.1 rfl rfl),
   ((normalize_total_with_defaults
      { Ro := RawVal.null, Rs := RawVal.null, Vout := RawVal.null,
        ratio := RawVal.null, status := RawStatus.missing } "x" 0).2.2.2.2.2 rfl)⟩

/-- C10: the `is_alert` flag of the persisted SensorReading is true exactly
when the ratio of the reading is at most the warning threshold; a ratio strictly in
the WARNING band (above warning) is not flagged. -/
theorem is_alert_iff_spoiled_band (warningT : ℚ) (reading_data : Reading) :
    ((save_reading warningT reading_data).is_alert = true ↔
      reading_data.ratio ≤ warningT) ∧
    (warningT < reading_data.ratio →
      (save_reading warningT reading_data).is_alert = false) := by
  constructor
  · simp [save_reading]
  · intro h
    simp [save_reading, not_le.mpr h]

/-- Witness for C10: the sample reading with ratio 1/2 is flagged against
the default warning threshold, and a reading with ratio 3/5 in the WARNING
band is not. -/
theorem is_alert_iff_spoiled_band_witness :
    ((save_reading RATIO_WARNING sampleReading).is_alert = true ↔
      sampleReading.ratio ≤ RATIO_WARNING) ∧
    RATIO_WARNING < ({ sampleReading with ratio := (3:ℚ)/5 } : Reading).ratio ∧
    (save_reading RATIO_WARNING { sampleReading with ratio := (3:ℚ)/5 }).is_alert = false :=
  ⟨(is_alert_iff_spoiled_band RATIO_WARNING sampleReading).1,
   by norm_num [sampleReading, RATIO_WARNING],
   (is_alert_iff_spoiled_band RATIO_WARNING
     { sampleReading with ratio := (3:ℚ)/5 }).2
     (by norm_num [sampleReading, RATIO_WARNING])⟩

end FreshGuard
